import Mathlib

/-!
Shallow embedding of the trading-bot core in
`src/trader_x_ai/backend/brokers/kraken.py` and
`src/trader_x_ai/backend/main.py`.

Python `Decimal` values are modelled as `ℚ` (the operations the claims touch
are exact at the precision involved), Python `None`-able arguments as
`Option`, raised exceptions as `Except` errors, and the side effects we must
reason about (network requests, the active-trade table, the price cache) as
explicit data carried in the result.
-/

namespace TraderX

/-! ### Risk configuration (`KrakenAPI.__init__`, kraken.py lines 37-40) -/

/-- `self.max_position_size = Decimal('0.1')`. -/
def max_position_size : ℚ := 1/10

/-- `self.max_leverage = 5`. -/
def max_leverage : ℤ := 5

/-- `self.stop_loss_pct = Decimal('0.02')`. -/
def stop_loss_pct : ℚ := 2/100

/-- `self.take_profit_pct = Decimal('0.06')`. -/
def take_profit_pct : ℚ := 6/100

/-! ### `KrakenAPI.place_order` (kraken.py lines 161-206) -/

/-- One entry of `self.active_trades` as written on lines 195-204
(`'type'` is bound to the `order_type` argument, `'side'` to `side`). -/
structure ActiveTrade where
  pair : String
  type_ : String
  side : String
  volume : ℚ
  price : Option ℚ
  stop_loss : ℚ
  take_profit : ℚ
deriving Repr, DecidableEq

/-- The request body `data` sent to the `AddOrder` endpoint
(lines 168-189).  `price` is the optional `data['price']` key, present only
when the Python condition `price and order_type == 'limit'` holds
(`price` truthy means: not `None` and not zero). -/
structure OrderRequest where
  pair : String
  type_ : String
  ordertype : String
  volume : ℚ
  leverage : ℤ
  price : Option ℚ
  close_ordertype : String
  close_price : ℚ
  close_price2 : ℚ
deriving Repr, DecidableEq

/-- Exceptions `place_order` can raise.
`riskLimitExceeded` is the `ValueError("Leverage ... exceeds maximum ...")`
of line 166 — the spec's taxonomy names this condition `RiskLimitExceeded`.
`typeErrorNonePrice` is the `TypeError` raised on line 181/184 when
`price` is `None` and is multiplied by a `Decimal`.
`brokerError` is any exception propagating out of `_private_request`. -/
inductive OrderError
  | riskLimitExceeded
  | typeErrorNonePrice
  | brokerError
deriving Repr, DecidableEq

/-- Result of one `place_order` call: the returned value or raised
exception, the list of network requests actually issued (in order), and the
state of the active-trade table afterwards. -/
structure OrderOutcome where
  result : Except OrderError String
  networkCalls : List OrderRequest
  active_trades : List (String × ActiveTrade)
deriving Repr

/-- `KrakenAPI.place_order` (lines 161-206), with the exchange's reply to
the single `AddOrder` request abstracted as `netResp` (`Except.ok txid`
models `result['txid'][0]`; `Except.error` models `_private_request`
raising).  Mirrors the source line by line:
leverage guard (165-166), request body (168-177), stop-loss/take-profit
computation (180-185) — which raises `TypeError` when `price` is `None` —
conditional-close fields (187-189), network call (191), and trade
bookkeeping (194-204). -/
def place_order (trades : List (String × ActiveTrade))
    (pair order_type side : String) (volume : ℚ) (price : Option ℚ)
    (leverage : ℤ) (netResp : Except Unit String) : OrderOutcome :=
  if max_leverage < leverage then
    { result := .error .riskLimitExceeded, networkCalls := [], active_trades := trades }
  else
    match price with
    | none =>
        -- line 181/184: `None * Decimal` raises TypeError before any request
        { result := .error .typeErrorNonePrice, networkCalls := [], active_trades := trades }
    | some p =>
        let stop_loss :=
          if side = "buy" then p * (1 - stop_loss_pct) else p * (1 + stop_loss_pct)
        let take_profit :=
          if side = "buy" then p * (1 + take_profit_pct) else p * (1 - take_profit_pct)
        let req : OrderRequest :=
          { pair := pair, type_ := side, ordertype := order_type, volume := volume
            leverage := leverage
            price := if p ≠ 0 ∧ order_type = "limit" then some p else none
            close_ordertype := "stop-loss-limit"
            close_price := stop_loss, close_price2 := take_profit }
        match netResp with
        | .error _ =>
            { result := .error .brokerError, networkCalls := [req], active_trades := trades }
        | .ok txid =>
            { result := .ok txid
              networkCalls := [req]
              active_trades :=
                (txid, { pair := pair, type_ := order_type, side := side,
                         volume := volume, price := some p,
                         stop_loss := stop_loss, take_profit := take_profit }) :: trades }

/-! ### `KrakenAPI.calculate_optimal_position_size` (kraken.py lines 216-230)

The function sums the account balance into `total_equity` (a network query,
abstracted here as the `total_equity` argument) and returns
`min(total_equity * self.max_position_size,
     (total_equity * risk_per_trade) / self.stop_loss_pct)`.
The configurable instance attributes are passed explicitly; no validation of
any kind is performed by the source (the `try/except` only logs and
re-raises network failures). -/

def calculate_optimal_position_size (max_position_size_cfg stop_loss_pct_cfg : ℚ)
    (total_equity risk_per_trade : ℚ) : ℚ :=
  min (total_equity * max_position_size_cfg)
      ((total_equity * risk_per_trade) / stop_loss_pct_cfg)

/-! ### Order submission from the orchestration paths -/

/-- The `place_order` invocation inside `KrakenAPI.execute_strategy`
(kraken.py lines 308-314): `order_type='market'`, no `price` argument, so
`price` defaults to `None`. -/
def execute_strategy_place (trades : List (String × ActiveTrade))
    (pair signal : String) (size : ℚ) (leverage : ℤ)
    (netResp : Except Unit String) : OrderOutcome :=
  place_order trades pair "market" signal size none leverage netResp

/-- The `place_order` invocation inside `TradingBot.run_strategy`
(main.py lines 135-141): `order_type='market'`, no `price` argument, so
`price` defaults to `None`. -/
def run_strategy_place (trades : List (String × ActiveTrade))
    (pair direction : String) (size : ℚ) (leverage : ℤ)
    (netResp : Except Unit String) : OrderOutcome :=
  place_order trades pair "market" direction size none leverage netResp

/-! ### `KrakenAPI.analyze_market` (kraken.py lines 232-273)

The close-price column of the OHLC frame is modelled as a `List ℚ`
(oldest first, as Kraken returns it).  A pandas rolling mean of window `w`
at the last row is defined only when at least `w` observations exist
(`min_periods` defaults to the window size); an undefined value (`NaN`) is
`none`.  Comparisons against `NaN` are `False` in pandas, which the
`Option` matches below reproduce. -/

/-- The last value of `series.rolling(window=w).mean()`: the mean of the
last `w` entries when the series is long enough, else `NaN` (`none`). -/
def lastRollingMean (w : ℕ) (xs : List ℚ) : Option ℚ :=
  if w ≤ xs.length then some ((xs.drop (xs.length - w)).sum / (w : ℚ)) else none

/-- `df['close'].diff()` without its leading `NaN`: the list
`[x₁-x₀, x₂-x₁, …]` (length one less than the input). -/
def deltas (closes : List ℚ) : List ℚ :=
  List.zipWith (fun a b => a - b) closes.tail closes

/-- `delta.where(delta > 0, 0)` (line 250).  The leading `NaN` of `diff`
fails the `> 0` test and becomes `0`, so the series is `NaN`-free. -/
def gains (closes : List ℚ) : List ℚ :=
  0 :: (deltas closes).map (fun d => if 0 < d then d else 0)

/-- `(-delta.where(delta < 0, 0))` (line 251); the leading `NaN` becomes
`0` for the same reason. -/
def losses (closes : List ℚ) : List ℚ :=
  0 :: (deltas closes).map (fun d => if d < 0 then -d else 0)

/-- `gain.rolling(window=14).mean()` at the last row. -/
def avgGain14 (closes : List ℚ) : Option ℚ := lastRollingMean 14 (gains closes)

/-- `loss.rolling(window=14).mean()` at the last row. -/
def avgLoss14 (closes : List ℚ) : Option ℚ := lastRollingMean 14 (losses closes)

/-- `df['RSI'] = 100 - (100 / (1 + gain/loss))` at the last row
(lines 252-253), with float division semantics: when `loss = 0` and
`gain > 0`, `gain/loss = +inf` and the RSI collapses to exactly `100`;
when `loss = 0` and `gain = 0`, `0/0 = NaN` and the RSI is `NaN`
(`none`). -/
def rsiLast (closes : List ℚ) : Option ℚ :=
  match avgGain14 closes, avgLoss14 closes with
  | some g, some l =>
      if l = 0 then (if g = 0 then none else some 100)
      else some (100 - 100 / (1 + g / l))
  | _, _ => none

/-- The trend label of line 264:
`'bullish' if latest['SMA_20'] > latest['SMA_50'] else 'bearish'`.
A comparison involving `NaN` is `False`, hence `'bearish'`. -/
def trendLabel (closes : List ℚ) : String :=
  match lastRollingMean 20 closes, lastRollingMean 50 closes with
  | some a, some b => if b < a then "bullish" else "bearish"
  | _, _ => "bearish"

/-- The fields of `analyze_market`'s return value that the strategy logic
reads (lines 263-269).  The MACD/Signal entries are exponentially weighted
means — total for any nonempty series and unread by `execute_strategy`'s
signal logic — and are omitted. -/
structure Analysis where
  trend : String
  rsi : Option ℚ
deriving Repr, DecidableEq

/-- `KrakenAPI.analyze_market` on an already-fetched close series.
On an empty frame `df.iloc[-1]` raises `IndexError` (modelled as
`Except.error`); otherwise the call returns normally — the source contains
no minimum-length check and no `InsufficientData` failure. -/
def analyze_market (closes : List ℚ) : Except Unit Analysis :=
  if closes = [] then .error ()
  else .ok { trend := trendLabel closes, rsi := rsiLast closes }

/-! ### Signal logic of `KrakenAPI.execute_strategy` (kraken.py lines 286-298) -/

/-- `analysis['rsi'] < c` under pandas semantics: `False` when the RSI is
`NaN`. -/
def rsiLt (x : Option ℚ) (c : ℚ) : Bool :=
  match x with
  | some r => decide (r < c)
  | none => false

/-- `analysis['rsi'] > c` under pandas semantics: `False` when the RSI is
`NaN`. -/
def rsiGt (x : Option ℚ) (c : ℚ) : Bool :=
  match x with
  | some r => decide (c < r)
  | none => false

/-- The signal block of `execute_strategy` (lines 287-298): at most one of
`'buy'`/`'sell'`, buy evaluated first. -/
def executeStrategySignal (stype : String) (a : Analysis) : Option String :=
  if stype = "trend_following" then
    if a.trend = "bullish" && rsiLt a.rsi 70 then some "buy"
    else if a.trend = "bearish" && rsiGt a.rsi 30 then some "sell"
    else none
  else if stype = "mean_reversion" then
    if rsiLt a.rsi 30 then some "buy"
    else if rsiGt a.rsi 70 then some "sell"
    else none
  else none

/-! ### `TradingBot.monitor_performance` (main.py lines 213-251) -/

/-- The entries of `self.performance_metrics` that the drawdown block
reads or writes.  `peak_equity` is `Option` because the key is ABSENT from
the dictionary built in `__init__` (main.py lines 31-41): `none` models a
missing key, and `Option.getD` models `dict.get(key, default)`. -/
structure Metrics where
  total_trades : ℕ
  max_drawdown : ℚ
  current_drawdown : ℚ
  peak_equity : Option ℚ
deriving Repr, DecidableEq

/-- `self.performance_metrics` as initialised in `TradingBot.__init__`:
no `peak_equity` key.  (`initialize` merges a saved snapshot but filters it
with `if k in self.performance_metrics`, so the key can never appear
later either.) -/
def initial_metrics : Metrics :=
  { total_trades := 0, max_drawdown := 0, current_drawdown := 0, peak_equity := none }

/-- One iteration of the drawdown block of `monitor_performance`
(main.py lines 222-231), with the summed balance passed in.  Note the
source computes the local `peak_equity` via
`self.performance_metrics.get('peak_equity', current_equity)` but never
stores it back, so the structure's `peak_equity` field is left unchanged —
exactly as in the source. -/
def monitor_step (m : Metrics) (balance_sum : ℚ) : Metrics :=
  if 0 < m.total_trades then
    let current_equity := balance_sum
    let peak_equity := max current_equity (m.peak_equity.getD current_equity)
    let current_drawdown := (peak_equity - current_equity) / peak_equity
    { m with current_drawdown := current_drawdown
             max_drawdown := max m.max_drawdown current_drawdown }
  else m

/-! ### `KrakenAPI.start_websocket` / `_handle_websocket_data`
(kraken.py lines 97-159) -/

/-- One frame received from the feed, classified by how the source reacts:
* `invalidJson` — `json.loads` (line 125) raises; the exception leaves the
  `async with websockets.connect` block, so the connection is torn down and
  the outer loop reconnects after 5 s;
* `nonList` — parses but is not a `list` (line 127): ignored;
* `shortList` — a list with fewer than 3 elements (line 137): the handler
  returns early;
* `badStructure` — a list of length ≥ 3 whose payload makes the handler
  raise (e.g. missing keys); the `try/except` of lines 136-159 swallows it;
* `ticker pair price volume` — a well-formed ticker frame, which updates
  `self.price_cache[pair]` (lines 143-149). -/
inductive WsMsg
  | invalidJson
  | nonList
  | shortList
  | badStructure
  | ticker (pair : String) (price volume : ℚ)
deriving Repr, DecidableEq

/-- `self.price_cache` as a last-write-wins association from pair to last
price. -/
def Cache := List (String × ℚ)
deriving Repr, DecidableEq

/-- `self.price_cache[pair] = {...}` (lines 145-149). -/
def cacheUpdate (c : Cache) (pair : String) (price : ℚ) : Cache :=
  (pair, price) :: List.filter (fun e => e.1 ≠ pair) c

/-- The receive loop of one `websockets.connect` session (lines 123-128)
run over the frames the socket would deliver.  Returns the cache at the
end of the session and, when an uncaught exception aborted the session,
`some rest` with the frames that were never received on that
connection. -/
def run_connection (c : Cache) : List WsMsg → Cache × Option (List WsMsg)
  | [] => (c, none)
  | .invalidJson :: rest => (c, some rest)
  | .nonList :: rest => run_connection c rest
  | .shortList :: rest => run_connection c rest
  | .badStructure :: rest => run_connection c rest
  | .ticker p pr _ :: rest => run_connection (cacheUpdate c p pr) rest

/-- The outer reconnect loop of `start_websocket` (lines 101-132) over a
list of per-connection frame sequences: each session runs to its end or to
its first uncaught exception, then (after the 5 s sleep) a new connection
is opened. -/
def start_websocket_feed (c : Cache) : List (List WsMsg) → Cache
  | [] => c
  | conn :: conns => start_websocket_feed (run_connection c conn).1 conns

/-! ### `TradingBot.initialize` / `run` (main.py lines 47-111, 260-286)
and `KrakenAPI.start_websocket` (kraken.py lines 97-132)

`start_websocket` sets `self._running = True` (line 99) and then loops
`while self._running`; nothing inside the loop body clears the flag (only
`KrakenAPI.close` does, and nothing on the `initialize` path calls it).
The loop is modelled with explicit fuel: `ws_loop_fuel running n` is
`some ()` when the loop exits within `n` guard checks, `none` when it is
still running. -/

def ws_loop_fuel (running : Bool) : ℕ → Option Unit
  | 0 => none
  | n + 1 => if running then ws_loop_fuel running n else some ()

/-- `await self.kraken.start_websocket(...)` as awaited by `initialize`
(main.py line 91): the flag has just been set to `True`. -/
def start_websocket_fuel (n : ℕ) : Option Unit := ws_loop_fuel true n

/-- Whether `initialize` has completed within `n` loop steps of the
awaited `start_websocket`. -/
inductive InitResult
  | pending
  | done
deriving Repr, DecidableEq

/-- `TradingBot.initialize` (main.py lines 47-111): strategies are loaded,
then `start_websocket` is awaited directly; only after it returns would the
code reach `get_balance` and `self.running = True` (line 107). -/
def init_fuel (n : ℕ) : InitResult :=
  match start_websocket_fuel n with
  | none => .pending
  | some _ => .done

/-- `self.running` after `n` steps: set to `True` only on the last line of
`initialize`'s `try` block. -/
def bot_running_after (n : ℕ) : Bool :=
  match init_fuel n with
  | .pending => false
  | .done => true

/-- Number of `asyncio.create_task` calls `TradingBot.run` (lines 260-279)
has made after `n` steps: the per-(pair, strategy) tasks (2 pairs × 3
strategies) and the monitor task are created only after
`await self.initialize()` returns. -/
def run_tasks_started (n : ℕ) : ℕ :=
  match init_fuel n with
  | .pending => 0
  | .done => 7

/-! ## Shared helper lemmas -/

theorem gains_mem_nonneg (closes : List ℚ) : ∀ x ∈ gains closes, 0 ≤ x := by
  intro x hx
  simp only [gains, List.mem_cons, List.mem_map] at hx
  rcases hx with h | ⟨d, _, h⟩
  · simp [h]
  · subst h; split <;> simp_all [le_of_lt]

theorem losses_mem_nonneg (closes : List ℚ) : ∀ x ∈ losses closes, 0 ≤ x := by
  intro x hx
  simp only [losses, List.mem_cons, List.mem_map] at hx
  rcases hx with h | ⟨d, _, h⟩
  · simp [h]
  · subst h; split <;> simp_all [le_of_lt, neg_nonneg]

theorem lastRollingMean_nonneg (w : ℕ) (xs : List ℚ) (hx : ∀ x ∈ xs, 0 ≤ x) :
    ∀ g, lastRollingMean w xs = some g → 0 ≤ g := by
  intro g hg
  unfold lastRollingMean at hg
  split at hg
  · have hsum : 0 ≤ (xs.drop (xs.length - w)).sum :=
      List.sum_nonneg (fun x hmem => hx x (List.drop_subset _ _ hmem))
    have : g = (xs.drop (xs.length - w)).sum / (w : ℚ) := by
      exact (Option.some.injEq _ _ ▸ hg).symm
    rw [this]
    positivity
  · exact absurd hg (by simp)

theorem gains_length (closes : List ℚ) (h : closes ≠ []) :
    (gains closes).length = closes.length := by
  simp only [gains, deltas, List.length_cons, List.length_map, List.length_zipWith,
    List.length_tail]
  have : 0 < closes.length := List.length_pos.mpr h
  omega

theorem losses_length (closes : List ℚ) (h : closes ≠ []) :
    (losses closes).length = closes.length := by
  simp only [losses, deltas, List.length_cons, List.length_map, List.length_zipWith,
    List.length_tail]
  have : 0 < closes.length := List.length_pos.mpr h
  omega

/-! ## Claims -/

/-- Claim C1.  Every call to `place_order` with leverage strictly above the
configured maximum (5) fails with the risk-limit error before any network
request is issued, and the active-trade table is left unchanged. -/
theorem place_order_leverage_guard
    (trades : List (String × ActiveTrade)) (pair order_type side : String)
    (volume : ℚ) (price : Option ℚ) (leverage : ℤ)
    (netResp : Except Unit String) (h : max_leverage < leverage) :
    place_order trades pair order_type side volume price leverage netResp =
      { result := .error .riskLimitExceeded, networkCalls := [],
        active_trades := trades } := by
  simp [place_order, h]

/-- Witness for C1: leverage 6 against the default maximum 5. -/
theorem place_order_leverage_guard_witness :
    place_order [] "XBT/USD" "market" "buy" 1 none 6 (Except.ok "T") =
      { result := .error .riskLimitExceeded, networkCalls := [],
        active_trades := [] } :=
  place_order_leverage_guard [] "XBT/USD" "market" "buy" 1 none 6
    (Except.ok "T") (by decide)

/-- Claim C2.  For every priced order accepted by the exchange, the submitted
conditional-close prices and the recorded active-trade entry carry
stop-loss/take-profit that bracket the entry price in the direction implied
by side: for a buy, `price×(1−0.02) < price < price×(1+0.06)`; for a sell,
`price×(1−0.06) < price < price×(1+0.02)`. -/
theorem place_order_bracket
    (trades : List (String × ActiveTrade)) (pair order_type : String)
    (volume p : ℚ) (leverage : ℤ) (txid : String)
    (hp : 0 < p) (hl : leverage ≤ max_leverage) :
    (place_order trades pair order_type "buy" volume (some p) leverage (Except.ok txid) =
      { result := .ok txid,
        networkCalls := [
          { pair := pair,
            type_ := "buy",
            ordertype := order_type,
            volume := volume,
            leverage := leverage,
            price := if p ≠ 0 ∧ order_type = "limit" then some p else none,
            close_ordertype := "stop-loss-limit",
            close_price := p * (1 - 2/100),
            close_price2 := p * (1 + 6/100) }],
        active_trades := (txid,
          { pair := pair,
            type_ := order_type,
            side := "buy",
            volume := volume,
            price := some p,
            stop_loss := p * (1 - 2/100),
            take_profit := p * (1 + 6/100) }) :: trades } ∧
      p * (1 - 2/100) < p ∧ p < p * (1 + 6/100)) ∧
    (place_order trades pair order_type "sell" volume (some p) leverage (Except.ok txid) =
      { result := .ok txid,
        networkCalls := [
          { pair := pair,
            type_ := "sell",
            ordertype := order_type,
            volume := volume,
            leverage := leverage,
            price := if p ≠ 0 ∧ order_type = "limit" then some p else none,
            close_ordertype := "stop-loss-limit",
            close_price := p * (1 + 2/100),
            close_price2 := p * (1 - 6/100) }],
        active_trades := (txid,
          { pair := pair,
            type_ := order_type,
            side := "sell",
            volume := volume,
            price := some p,
            stop_loss := p * (1 + 2/100),
            take_profit := p * (1 - 6/100) }) :: trades } ∧
      p * (1 - 6/100) < p ∧ p < p * (1 + 2/100)) := by
  have hnl : ¬ max_leverage < leverage := not_lt.mpr hl
  refine ⟨⟨?_, by linarith, by linarith⟩, ⟨?_, by linarith, by linarith⟩⟩ <;>
    simp [place_order, hnl, stop_loss_pct, take_profit_pct]

/-- Witness for C2: a limit buy/sell at price 100 with leverage 1 gives
stop-loss 98 / take-profit 106 (buy) and 102 / 94 (sell). -/
theorem place_order_bracket_witness :
    (place_order [] "XBT/USD" "limit" "buy" 1 (some 100) 1 (Except.ok "TX")).active_trades =
      [("TX",
        { pair := "XBT/USD",
          type_ := "limit",
          side := "buy",
          volume := 1,
          price := some 100,
          stop_loss := 100 * (1 - 2/100),
          take_profit := 100 * (1 + 6/100) })] ∧
    (100 : ℚ) * (1 - 2/100) < 100 ∧ (100 : ℚ) < 100 * (1 + 6/100) := by
  have h := (place_order_bracket [] "XBT/USD" "limit" 1 100 1 "TX"
    (by norm_num) (by decide)).1
  exact ⟨by rw [h.1], h.2.1, h.2.2⟩

/-- Claim C3.  For equity > 0, 0 < riskPerTrade ≤ 1 and 0 < stopLossPct < 1,
position sizing returns `min(equity × 0.1, (equity × riskPerTrade) /
stopLossPct)`, which is ≤ both bounds and strictly positive. -/
theorem calculate_optimal_position_size_spec
    (e r s : ℚ) (he : 0 < e) (hr0 : 0 < r) (_hr1 : r ≤ 1) (hs0 : 0 < s) (_hs1 : s < 1) :
    calculate_optimal_position_size max_position_size s e r
        = min (e * (1/10)) ((e * r) / s) ∧
    calculate_optimal_position_size max_position_size s e r ≤ e * (1/10) ∧
    calculate_optimal_position_size max_position_size s e r ≤ (e * r) / s ∧
    0 < calculate_optimal_position_size max_position_size s e r := by
  refine ⟨rfl, min_le_left _ _, min_le_right _ _, ?_⟩
  have h1 : 0 < e * (1/10 : ℚ) := by positivity
  have h2 : 0 < (e * r) / s := by positivity
  exact lt_min h1 h2

/-- Witness for C3: equity 10000, riskPerTrade 0.01, stopLossPct 0.02
gives min(1000, 5000) = 1000. -/
theorem calculate_optimal_position_size_spec_witness :
    calculate_optimal_position_size max_position_size (1/50) 10000 (1/100) = 1000 ∧
    0 < calculate_optimal_position_size max_position_size (1/50) 10000 (1/100) := by
  have h := calculate_optimal_position_size_spec 10000 (1/100) (1/50)
    (by norm_num) (by norm_num) (by norm_num) (by norm_num) (by norm_num)
  refine ⟨?_, h.2.2.2⟩
  rw [h.1]; norm_num

/-- Claim C9, counterexample.  At equity 0 (and at equity −100) the sizing
function returns the non-positive value instead of failing: the source
contains no validation whatsoever. -/
theorem calculate_optimal_position_size_no_validation_cx :
    calculate_optimal_position_size max_position_size (2/100) 0 (1/100) = 0 ∧
    calculate_optimal_position_size max_position_size (2/100) (-100) (1/100) = -50 ∧
    (calculate_optimal_position_size max_position_size (2/100) (-100) (1/100) ≤ 0) := by
  refine ⟨by norm_num [calculate_optimal_position_size, max_position_size],
          by norm_num [calculate_optimal_position_size, max_position_size],
          by norm_num [calculate_optimal_position_size, max_position_size]⟩

/-- Claim C9, amended.  For every non-positive equity (with positive
riskPerTrade and stopLossPct), position sizing does not fail: it returns
`min(equity × 0.1, (equity × riskPerTrade)/stopLossPct)`, which is
non-positive. -/
theorem calculate_optimal_position_size_nonpositive
    (e r s : ℚ) (he : e ≤ 0) (_hr : 0 < r) (_hs : 0 < s) :
    calculate_optimal_position_size max_position_size s e r
        = min (e * (1/10)) ((e * r) / s) ∧
    calculate_optimal_position_size max_position_size s e r ≤ 0 := by
  refine ⟨rfl, ?_⟩
  have h1 : e * (1/10 : ℚ) ≤ 0 := by nlinarith
  exact le_trans (min_le_left _ _) h1

/-- Witness for C9's amended claim: equity −100 yields −50 ≤ 0. -/
theorem calculate_optimal_position_size_nonpositive_witness :
    calculate_optimal_position_size max_position_size (2/100) (-100) (1/100)
        = min ((-100 : ℚ) * (1/10)) (((-100) * (1/100)) / (2/100)) ∧
    calculate_optimal_position_size max_position_size (2/100) (-100) (1/100) ≤ 0 :=
  calculate_optimal_position_size_nonpositive (-100) (1/100) (2/100)
    (by norm_num) (by norm_num) (by norm_num)

/-- Claim C4.  Every `place_order` call with a market order and no price — in
particular the invocations made by `KrakenAPI.execute_strategy` and
`TradingBot.run_strategy`, both of which omit `price` — raises the
`TypeError` of the stop-loss computation before any network request, so no
signal-driven order is ever submitted and the trade table is unchanged.
(The leverage hypothesis holds for every configured strategy: leverages
1-4 against the maximum 5.) -/
theorem market_order_none_price_type_error
    (trades : List (String × ActiveTrade)) (pair side : String)
    (size : ℚ) (leverage : ℤ) (netResp : Except Unit String)
    (hl : leverage ≤ max_leverage) :
    place_order trades pair "market" side size none leverage netResp =
      { result := .error .typeErrorNonePrice, networkCalls := [],
        active_trades := trades } ∧
    execute_strategy_place trades pair side size leverage netResp =
      { result := .error .typeErrorNonePrice, networkCalls := [],
        active_trades := trades } ∧
    run_strategy_place trades pair side size leverage netResp =
      { result := .error .typeErrorNonePrice, networkCalls := [],
        active_trades := trades } := by
  have hnl : ¬ max_leverage < leverage := not_lt.mpr hl
  refine ⟨?_, ?_, ?_⟩ <;>
    simp [place_order, execute_strategy_place, run_strategy_place, hnl]

/-- Witness for C4: the trend-following configuration (leverage 3) placing
a market buy. -/
theorem market_order_none_price_type_error_witness :
    place_order [] "XBT/USD" "market" "buy" 1000 none 3 (Except.ok "T") =
      { result := .error .typeErrorNonePrice, networkCalls := [],
        active_trades := [] } ∧
    execute_strategy_place [] "XBT/USD" "buy" 1000 3 (Except.ok "T") =
      { result := .error .typeErrorNonePrice, networkCalls := [],
        active_trades := [] } ∧
    run_strategy_place [] "XBT/USD" "buy" 1000 3 (Except.ok "T") =
      { result := .error .typeErrorNonePrice, networkCalls := [],
        active_trades := [] } :=
  market_order_none_price_type_error [] "XBT/USD" "buy" 1000 3
    (Except.ok "T") (by decide)

/-- Claim C5, counterexample.  On the 20-candle series 1,2,…,20 (shorter
than the 50-candle window) `analyze_market` does not fail: it returns
trend `'bearish'` (the 50-period SMA is `NaN` and the comparison is
`False`) with RSI 100, and the trend-following signal logic then emits a
`'sell'` — signal generation is reached, contradicting the claim. -/
theorem analyze_market_short_signal_cx :
    ([1, 2, 3, 4, 5, 6, 7, 8, 9, 10,
      11, 12, 13, 14, 15, 16, 17, 18, 19, 20] : List ℚ).length < 50 ∧
    analyze_market [1, 2, 3, 4, 5, 6, 7, 8, 9, 10,
        11, 12, 13, 14, 15, 16, 17, 18, 19, 20]
      = .ok { trend := "bearish", rsi := some 100 } ∧
    executeStrategySignal "trend_following" { trend := "bearish", rsi := some 100 }
      = some "sell" := by
  have hr : rsiLast [1, 2, 3, 4, 5, 6, 7, 8, 9, 10,
      11, 12, 13, 14, 15, 16, 17, 18, 19, 20] = some 100 := by
    norm_num [rsiLast, avgGain14, avgLoss14, lastRollingMean, gains, losses,
      deltas, List.sum_cons, List.sum_nil]
  have ht : trendLabel [1, 2, 3, 4, 5, 6, 7, 8, 9, 10,
      11, 12, 13, 14, 15, 16, 17, 18, 19, 20] = "bearish" := by
    norm_num [trendLabel, lastRollingMean]
  refine ⟨by norm_num, ?_, ?_⟩
  · unfold analyze_market
    rw [if_neg (by simp), ht, hr]
  · norm_num [executeStrategySignal, rsiLt, rsiGt]

/-- Claim C5, amended.  For every nonempty candle sequence shorter than
the 50-candle window, market analysis succeeds (there is no
`InsufficientData` failure in the source): the trend defaults to
`'bearish'` because the 50-period SMA is undefined, and signal generation
is still invoked — under `trend_following` it emits `'sell'` whenever the
RSI is defined and exceeds 30. -/
theorem analyze_market_short_no_insufficient_data
    (closes : List ℚ) (h0 : closes ≠ []) (h50 : closes.length < 50) :
    analyze_market closes = .ok { trend := "bearish", rsi := rsiLast closes } ∧
    (∀ r, rsiLast closes = some r → 30 < r →
      executeStrategySignal "trend_following"
          { trend := "bearish", rsi := rsiLast closes } = some "sell") := by
  have h5 : lastRollingMean 50 closes = none := by
    unfold lastRollingMean
    rw [if_neg (by omega)]
  have ht : trendLabel closes = "bearish" := by
    unfold trendLabel
    rw [h5]
    cases lastRollingMean 20 closes <;> rfl
  constructor
  · unfold analyze_market
    rw [if_neg h0, ht]
  · intro r hr h30
    simp [executeStrategySignal, rsiGt, hr, h30]

/-- Witness for C5's amended claim: the series 1,2,…,20. -/
theorem analyze_market_short_no_insufficient_data_witness :
    analyze_market [1, 2, 3, 4, 5, 6, 7, 8, 9, 10,
        11, 12, 13, 14, 15, 16, 17, 18, 19, 20]
      = .ok { trend := "bearish",
              rsi := rsiLast [1, 2, 3, 4, 5, 6, 7, 8, 9, 10,
                11, 12, 13, 14, 15, 16, 17, 18, 19, 20] } ∧
    executeStrategySignal "trend_following"
        { trend := "bearish",
          rsi := rsiLast [1, 2, 3, 4, 5, 6, 7, 8, 9, 10,
            11, 12, 13, 14, 15, 16, 17, 18, 19, 20] } = some "sell" := by
  have h := analyze_market_short_no_insufficient_data
    [1, 2, 3, 4, 5, 6, 7, 8, 9, 10, 11, 12, 13, 14, 15, 16, 17, 18, 19, 20]
    (by simp) (by norm_num)
  refine ⟨h.1, h.2 100 ?_ (by norm_num)⟩
  norm_num [rsiLast, avgGain14, avgLoss14, lastRollingMean, gains, losses,
    deltas, List.sum_cons, List.sum_nil]

/-- Claim C6, counterexample.  On a constant 14-candle series every delta
is zero (hence non-negative and `avgLoss = 0`), yet the computed RSI is
`NaN` (`0/0` propagates), not 100 — and in particular not in `[0, 100]`. -/
theorem rsi_constant_series_cx :
    deltas (List.replicate 14 (5 : ℚ)) = List.replicate 13 0 ∧
    avgGain14 (List.replicate 14 (5 : ℚ)) = some 0 ∧
    avgLoss14 (List.replicate 14 (5 : ℚ)) = some 0 ∧
    rsiLast (List.replicate 14 (5 : ℚ)) = none := by
  refine ⟨?_, ?_, ?_, ?_⟩ <;>
    norm_num [rsiLast, avgGain14, avgLoss14, lastRollingMean, gains, losses,
      deltas, List.replicate, List.sum_cons, List.sum_nil]

/-- Claim C6, amended.  For every candle sequence long enough for the
14-period window, the window averages of gains and losses are defined and
non-negative; whenever the RSI is defined it lies in `[0, 100]`; when the
average loss is zero and the average gain is nonzero the RSI saturates to
exactly 100; and whenever the average loss is nonzero the RSI equals
`100 − 100/(1 + avgGain/avgLoss)`.  (When every delta in the window is
zero the RSI is `NaN`, the undefined case exhibited by the
counterexample.) -/
theorem rsi_formula_amended (closes : List ℚ) (h14 : 14 ≤ closes.length) :
    (∃ g l, avgGain14 closes = some g ∧ avgLoss14 closes = some l ∧
      0 ≤ g ∧ 0 ≤ l) ∧
    (∀ r, rsiLast closes = some r → 0 ≤ r ∧ r ≤ 100) ∧
    (∀ g, avgGain14 closes = some g → avgLoss14 closes = some 0 → g ≠ 0 →
      rsiLast closes = some 100) ∧
    (∀ g l, avgGain14 closes = some g → avgLoss14 closes = some l → l ≠ 0 →
      rsiLast closes = some (100 - 100 / (1 + g / l))) := by
  have hne : closes ≠ [] := by
    intro h
    rw [h] at h14
    simp at h14
  have hgl : (gains closes).length = closes.length := gains_length closes hne
  have hll : (losses closes).length = closes.length := losses_length closes hne
  obtain ⟨g, hg⟩ : ∃ g, avgGain14 closes = some g := by
    unfold avgGain14 lastRollingMean
    rw [if_pos (by omega)]
    exact ⟨_, rfl⟩
  obtain ⟨l, hl⟩ : ∃ l, avgLoss14 closes = some l := by
    unfold avgLoss14 lastRollingMean
    rw [if_pos (by omega)]
    exact ⟨_, rfl⟩
  have hg0 : 0 ≤ g :=
    lastRollingMean_nonneg 14 (gains closes) (gains_mem_nonneg closes) g hg
  have hl0 : 0 ≤ l :=
    lastRollingMean_nonneg 14 (losses closes) (losses_mem_nonneg closes) l hl
  have hrsi : rsiLast closes =
      if l = 0 then (if g = 0 then none else some 100)
      else some (100 - 100 / (1 + g / l)) := by
    unfold rsiLast
    rw [hg, hl]
  refine ⟨⟨g, l, hg, hl, hg0, hl0⟩, ?_, ?_, ?_⟩
  · intro r hr
    rw [hrsi] at hr
    by_cases hlz : l = 0
    · rw [if_pos hlz] at hr
      by_cases hgz : g = 0
      · rw [if_pos hgz] at hr
        exact absurd hr (by simp)
      · rw [if_neg hgz] at hr
        have h100 : (100 : ℚ) = r := Option.some.inj hr
        constructor <;> linarith
    · rw [if_neg hlz] at hr
      have hrv : 100 - 100 / (1 + g / l) = r := Option.some.inj hr
      have hlpos : 0 < l := lt_of_le_of_ne hl0 (Ne.symm hlz)
      have hrs : 0 ≤ g / l := div_nonneg hg0 hl0
      have hone : (1 : ℚ) ≤ 1 + g / l := by linarith
      have honep : (0 : ℚ) < 1 + g / l := by linarith
      have hle : 100 / (1 + g / l) ≤ 100 := div_le_self (by norm_num) hone
      have hpos : 0 < 100 / (1 + g / l) := div_pos (by norm_num) honep
      constructor <;> linarith
  · intro g' hg' hl' hg'nz
    rw [hg] at hg'
    have : g = g' := Option.some.inj hg'
    subst this
    rw [hl] at hl'
    have : l = 0 := Option.some.inj hl'
    subst this
    rw [hrsi, if_pos rfl, if_neg hg'nz]
  · intro g' l' hg' hl' hl'nz
    rw [hg] at hg'
    have : g = g' := Option.some.inj hg'
    subst this
    rw [hl] at hl'
    have : l = l' := Option.some.inj hl'
    subst this
    rw [hrsi, if_neg hl'nz]

/-- Witness for C6's amended claim: a 14-candle series with twelve unit
gains and one unit loss, where `avgGain = 6/7`, `avgLoss = 1/14` and the
RSI equals the stated formula. -/
theorem rsi_formula_amended_witness :
    rsiLast [10, 11, 12, 13, 14, 15, 16, 17, 18, 19, 20, 21, 22, 21]
      = some (100 - 100 / (1 + (6/7 : ℚ) / (1/14))) :=
  (rsi_formula_amended
    [10, 11, 12, 13, 14, 15, 16, 17, 18, 19, 20, 21, 22, 21]
    (by norm_num)).2.2.2 (6/7) (1/14)
    (by norm_num [avgGain14, lastRollingMean, gains, deltas,
      List.sum_cons, List.sum_nil])
    (by norm_num [avgLoss14, lastRollingMean, losses, deltas,
      List.sum_cons, List.sum_nil])
    (by norm_num)

/-- Claim C7 (code bug in the source).  `monitor_performance` reads
`performance_metrics.get('peak_equity', current_equity)` but never stores
a `peak_equity` key (the `__init__` dictionary lacks it and no assignment
ever creates it), so the local peak always equals the current equity and
the computed drawdown is 0 on every iteration: for the claimed scenario
10000 → 9000 → 9500 the code yields drawdowns 0, 0, 0 and maxDrawdown 0
instead of 0.10, 0.05, 0.10. -/
theorem monitor_drawdown_always_zero :
    (∀ (m : Metrics) (b : ℚ), (monitor_step m b).peak_equity = m.peak_equity) ∧
    (monitor_step { initial_metrics with total_trades := 1 } 10000).current_drawdown
        = 0 ∧
    (monitor_step (monitor_step { initial_metrics with total_trades := 1 } 10000)
        9000).current_drawdown = 0 ∧
    (monitor_step (monitor_step
        (monitor_step { initial_metrics with total_trades := 1 } 10000) 9000)
        9500).current_drawdown = 0 ∧
    (monitor_step (monitor_step
        (monitor_step { initial_metrics with total_trades := 1 } 10000) 9000)
        9500).max_drawdown = 0 := by
  have h1 : monitor_step { initial_metrics with total_trades := 1 } 10000 =
      { total_trades := 1, max_drawdown := 0, current_drawdown := 0,
        peak_equity := none } := by
    norm_num [monitor_step, initial_metrics]
  have h2 : monitor_step
      { total_trades := 1, max_drawdown := 0,
        current_drawdown := 0, peak_equity := (none : Option ℚ) } 9000 =
      { total_trades := 1, max_drawdown := 0, current_drawdown := 0,
        peak_equity := none } := by
    norm_num [monitor_step]
  have h3 : monitor_step
      { total_trades := 1, max_drawdown := 0,
        current_drawdown := 0, peak_equity := (none : Option ℚ) } 9500 =
      { total_trades := 1, max_drawdown := 0, current_drawdown := 0,
        peak_equity := none } := by
    norm_num [monitor_step]
  refine ⟨?_, ?_, ?_, ?_, ?_⟩
  · intro m b
    by_cases h : 0 < m.total_trades <;> simp [monitor_step, h]
  · rw [h1]
  · rw [h1, h2]
  · rw [h1, h2, h3]
  · rw [h1, h2, h3]

/-- Claim C8, counterexample.  In a single feed connection delivering a
well-formed ticker, then a frame that is not valid JSON, then another
well-formed ticker, the invalid-JSON frame aborts the connection: the
second ticker is never received on it and the cache still holds the first
price — the connection does not stay open and the single message is not
all that is lost. -/
theorem ws_invalid_json_kills_connection_cx :
    run_connection [] [WsMsg.ticker "XBT/USD" 100 1, WsMsg.invalidJson,
        WsMsg.ticker "XBT/USD" 200 1]
      = ([("XBT/USD", 100)], some [WsMsg.ticker "XBT/USD" 200 1]) := by
  rfl

/-- Claim C8, amended.  A malformed message that still parses as JSON
(non-list frame, too-short list, or a list the handler raises on) is
dropped singly with the connection intact; a message that is NOT valid
JSON raises out of the receive loop, aborting the current connection and
losing its remaining messages; the outer loop then reconnects (after the
fixed delay) and processing continues on the next connection. -/
theorem ws_malformed_message_handling (c : Cache) (rest : List WsMsg)
    (conns : List (List WsMsg)) :
    run_connection c (WsMsg.badStructure :: rest) = run_connection c rest ∧
    run_connection c (WsMsg.shortList :: rest) = run_connection c rest ∧
    run_connection c (WsMsg.nonList :: rest) = run_connection c rest ∧
    run_connection c (WsMsg.invalidJson :: rest) = (c, some rest) ∧
    start_websocket_feed c ((WsMsg.invalidJson :: rest) :: conns)
      = start_websocket_feed c conns := by
  exact ⟨rfl, rfl, rfl, rfl, rfl⟩

/-- Claim C10.  `TradingBot.initialize` awaits `start_websocket` directly
and `start_websocket` loops while its running flag (set on entry) holds —
nothing on this path clears it — so for every amount of fuel the loop has
not returned, `initialize` is still pending, `self.running` is still
`False`, and no per-(pair, strategy) or monitoring task has been
created. -/
theorem init_never_completes :
    ∀ n : ℕ, start_websocket_fuel n = none ∧ init_fuel n = InitResult.pending ∧
      bot_running_after n = false ∧ run_tasks_started n = 0 := by
  have hws : ∀ n : ℕ, ws_loop_fuel true n = none := by
    intro n
    induction n with
    | zero => rfl
    | succ k ih => simpa [ws_loop_fuel] using ih
  intro n
  have h1 : start_websocket_fuel n = none := hws n
  have h2 : init_fuel n = InitResult.pending := by
    unfold init_fuel
    rw [h1]
  have h3 : bot_running_after n = false := by
    unfold bot_running_after
    rw [h2]
  have h4 : run_tasks_started n = 0 := by
    unfold run_tasks_started
    rw [h2]
  exact ⟨h1, h2, h3, h4⟩

end TraderX
